import Mathlib

/-!
Verification of the sampling-and-classification core of `src/app.py`
(class `AdvancedSystemPetGUI`): the mood classifier `determine_mood`
(lines 753-764), the monitor loop `monitor_system` (lines 955-997:
history buffers, network-rate estimate, statistics counters, alert
debouncing) and the statistics display `update_statistics_display`
(lines 1066-1092).

Python floats are modelled as rationals (`ℚ`), Python integers as `ℤ`.
A metric-read failure, which in Python raises inside the per-tick
`try` block and is caught by the `except` clause, is modelled as a
`none` metrics input to the tick.  A `ZeroDivisionError` from the
network-rate division (`time_delta` equal to zero) is raised in the
source before any state mutation of that tick and caught by the same
`except`, so it is modelled as a tick that leaves the state unchanged
and produces no output.
-/

namespace ServerPet

/-- The four mood strings returned by `determine_mood` in `src/app.py`. -/
inductive Mood where
  | happy
  | content
  | worried
  | critical
deriving DecidableEq

/-- `determine_mood(self, cpu, ram, disk)` from `src/app.py` lines 753-764.
The value `threshold = self.cpu_thresh_slider.get()` is passed explicitly. -/
def determine_mood (threshold cpu ram disk : ℚ) : Mood :=
  if cpu > threshold ∨ ram > threshold ∨ disk > threshold then .critical
  else if cpu > 75 ∨ ram > 75 ∨ disk > 75 then .worried
  else if cpu < 30 ∧ ram < 50 ∧ disk < 70 then .happy
  else .content

/-- Alert logic of `monitor_system`, `src/app.py` lines 989-993:
`if new_mood == 'critical' and not self.alert_shown and self.alert_enabled.get():`
fire the alert and set `alert_shown = True`;
`elif new_mood != 'critical': alert_shown = False`.
Input is the current `alert_shown` flag, the `alert_enabled` configuration and
the classified mood; output is the pair (alert fired, new `alert_shown`). -/
def alertStep (shown enabled : Bool) (m : Mood) : Bool × Bool :=
  if m = .critical ∧ shown = false ∧ enabled = true then (true, true)
  else if m ≠ .critical then (false, false)
  else (false, shown)

/-- The list of fired flags produced by running `alertStep` over a sequence of
(enabled, mood) tick inputs, starting from a given `alert_shown` flag. -/
def alertTrace (shown : Bool) : List (Bool × Mood) → List Bool
  | [] => []
  | (en, m) :: rest =>
      (alertStep shown en m).1 :: alertTrace (alertStep shown en m).2 rest

/-- Number of maximal contiguous runs of Critical entered by a mood sequence,
given whether the preceding mood was already Critical.  Formalisation of the
notion of a fresh entry into the critical state. -/
def criticalRunStarts (prevCrit : Bool) : List Mood → Nat
  | [] => 0
  | m :: ms =>
      (if m = .critical ∧ prevCrit = false then 1 else 0) +
        criticalRunStarts (decide (m = .critical)) ms

/-- One reading of `psutil` values inside `monitor_system`: cpu, ram and disk
percentages, the cumulative network counters `bytes_sent` and `bytes_recv`,
and the wall-clock value of `time.time()` at this tick. -/
structure Metrics where
  cpu : ℚ
  ram : ℚ
  disk : ℚ
  sent : ℤ
  recv : ℤ
  time : ℚ

/-- The per-tick input of the monitor loop: the metric reading (`none` when a
metric read raises), the slider threshold and the alert-enabled checkbox. -/
structure TickInput where
  metrics : Option Metrics
  threshold : ℚ
  enabled : Bool

/-- The `self.stats` dictionary of `src/app.py` lines 66-74.  Note that the
source has no counter for time spent in the Content mood. -/
structure Stats where
  happy_time : ℚ
  worried_time : ℚ
  critical_time : ℚ
  total_time : ℚ
  max_cpu : ℚ
  max_ram : ℚ
  max_disk : ℚ

/-- The mutable state of `monitor_system`: the four `deque(maxlen=60)`
histories, the statistics, the `alert_shown` flag, the previous network
counters and timestamp, and the loop `start_time`. -/
structure MonitorState where
  cpu_history : List ℚ
  ram_history : List ℚ
  disk_history : List ℚ
  net_history : List ℚ
  stats : Stats
  alert_shown : Bool
  last_net_sent : ℤ
  last_net_recv : ℤ
  last_net_time : ℚ
  start_time : ℚ

/-- `deque(maxlen=60).append(x)`: append on the right, evicting the leftmost
element when the deque is full. -/
def pushHistory (l : List ℚ) (x : ℚ) : List ℚ :=
  (if l.length < 60 then l else l.drop 1) ++ [x]

/-- The network-rate computation of `src/app.py` lines 966-968:
`net_speed = (bytes_sent + bytes_recv) / time_delta / 1024` in KB/s.
A `time_delta` of exactly zero raises `ZeroDivisionError` in Python,
modelled as `none`; there is no epsilon floor and no counter-reset guard. -/
def netSpeedKBs (dt : ℚ) (bytes : ℤ) : Option ℚ :=
  if dt = 0 then none else some ((bytes : ℚ) / dt / 1024)

/-- The state update of one successful iteration of `monitor_system`
(lines 961-993), given the reading `m` and the computed `net_speed` value
`ns`: update the last network counters, push one sample onto each history
(the network sample is `min(net_speed / 1024 * 10, 100)`), update the peak
and time statistics (poll_interval = 2 seconds added to the counter of the
classified mood; Content has no counter), and run the alert gate.
Returns the new state with the classified mood and the fired flag. -/
def tickSuccess (s : MonitorState) (threshold : ℚ) (enabled : Bool) (m : Metrics) (ns : ℚ) :
    MonitorState × (Mood × Bool) :=
  let mood := determine_mood threshold m.cpu m.ram m.disk
  let gate := alertStep s.alert_shown enabled mood
  ({ cpu_history := pushHistory s.cpu_history m.cpu
     ram_history := pushHistory s.ram_history m.ram
     disk_history := pushHistory s.disk_history m.disk
     net_history := pushHistory s.net_history (min (ns / 1024 * 10) 100)
     stats := {
       happy_time := s.stats.happy_time + (if mood = .happy then 2 else 0)
       worried_time := s.stats.worried_time + (if mood = .worried then 2 else 0)
       critical_time := s.stats.critical_time + (if mood = .critical then 2 else 0)
       total_time := m.time - s.start_time
       max_cpu := max s.stats.max_cpu m.cpu
       max_ram := max s.stats.max_ram m.ram
       max_disk := max s.stats.max_disk m.disk }
     alert_shown := gate.2
     last_net_sent := m.sent
     last_net_recv := m.recv
     last_net_time := m.time
     start_time := s.start_time }, (mood, gate.1))

/-- One iteration of the `while self.running` loop of `monitor_system`.
A failed metric read (`none`) or a zero `time_delta` is caught by the
`except` clause before any mutation: the state is returned unchanged and no
snapshot is produced.  Otherwise the full update of `tickSuccess` runs. -/
def monitorTick (s : MonitorState) (inp : TickInput) : MonitorState × Option (Mood × Bool) :=
  match inp.metrics with
  | none => (s, none)
  | some m =>
      match netSpeedKBs (m.time - s.last_net_time)
          ((m.sent - s.last_net_sent) + (m.recv - s.last_net_recv)) with
      | none => (s, none)
      | some ns =>
          let r := tickSuccess s inp.threshold inp.enabled m ns
          (r.1, some r.2)

/-- Run the monitor loop over a list of tick inputs, collecting the final
state and the per-tick outputs (mood and alert-fired flag of each successful
tick, `none` for skipped ticks). -/
def monitorRun (s : MonitorState) : List TickInput → MonitorState × List (Option (Mood × Bool))
  | [] => (s, [])
  | inp :: rest =>
      let r := monitorRun (monitorTick s inp).1 rest
      (r.1, (monitorTick s inp).2 :: r.2)

/-- The engine state at the start of `monitor_system`: empty histories,
all statistics zero (`src/app.py` lines 56-74), `alert_shown = False`,
the initial network counters and timestamp from `__init__`, and the
`start_time` recorded when the loop starts. -/
def initState (sent0 recv0 : ℤ) (t0 start : ℚ) : MonitorState :=
  { cpu_history := [], ram_history := [], disk_history := [], net_history := []
    stats := ⟨0, 0, 0, 0, 0, 0, 0⟩
    alert_shown := false
    last_net_sent := sent0, last_net_recv := recv0
    last_net_time := t0, start_time := start }

/-- The averages part of `update_statistics_display` (`src/app.py` lines
1066-1092): guarded by `if total_time > 0`, it computes
`sum(history) / len(history)` for the cpu, ram and disk histories; when the
guard fails nothing is displayed, modelled as `none`. -/
def update_statistics_display (s : MonitorState) : Option (ℚ × ℚ × ℚ) :=
  if 0 < s.stats.total_time then
    some (s.cpu_history.sum / s.cpu_history.length,
          s.ram_history.sum / s.ram_history.length,
          s.disk_history.sum / s.disk_history.length)
  else none

/-- The sum of the three time-in-state counters the source actually keeps
(`happy_time + worried_time + critical_time`); there is no `content_time`. -/
def timeInStateSum (st : Stats) : ℚ :=
  st.happy_time + st.worried_time + st.critical_time

/-- The number of successful ticks whose classified mood has a time counter,
i.e. successful ticks with mood other than Content. -/
def countMoodTicks : List (Option (Mood × Bool)) → Nat
  | [] => 0
  | some (m, _) :: rest => (if m = .content then 0 else 1) + countMoodTicks rest
  | none :: rest => countMoodTicks rest

/-! ## Helper lemmas -/

theorem alertTrace_count_eq (ms : List Mood) : ∀ shown : Bool,
    (alertTrace shown (ms.map fun m => (true, m))).count true =
      criticalRunStarts shown ms := by
  induction ms with
  | nil => intro shown; simp [alertTrace, criticalRunStarts]
  | cons m ms ih =>
      intro shown
      cases m <;> cases shown <;>
        simp [alertTrace, alertStep, criticalRunStarts, List.count_cons, ih] <;> omega

theorem length_pushHistory (l : List ℚ) (x : ℚ) :
    (pushHistory l x).length = (if l.length < 60 then l.length else l.length - 1) + 1 := by
  simp only [pushHistory]
  split <;> simp

theorem mem_pushHistory {l : List ℚ} {x y : ℚ} (h : y ∈ pushHistory l x) :
    y ∈ l ∨ y = x := by
  simp only [pushHistory] at h
  rcases List.mem_append.1 h with h | h
  · split at h
    · exact Or.inl h
    · exact Or.inl (List.mem_of_mem_drop h)
  · simp at h; exact Or.inr h

theorem foldl_pushHistory_drop (xs : List ℚ) :
    xs.foldl pushHistory [] = xs.drop (xs.length - 60) := by
  induction xs using List.reverseRecOn with
  | nil => rfl
  | append_singleton xs x ih =>
      rw [List.foldl_append, List.foldl_cons, List.foldl_nil, ih]
      by_cases h : xs.length < 60
      · have h1 : xs.length - 60 = 0 := by omega
        have h2 : (xs ++ [x]).length - 60 = 0 := by simp; omega
        rw [h1, h2, List.drop_zero, List.drop_zero]
        simp only [pushHistory, if_pos h]
      · have h60 : 60 ≤ xs.length := by omega
        have hlen : (xs.drop (xs.length - 60)).length = 60 := by
          rw [List.length_drop]; omega
        simp only [pushHistory, hlen]
        rw [if_neg (by omega), List.drop_drop]
        rw [List.drop_append_of_le_length
          (by simp only [List.length_append, List.length_cons, List.length_nil]; omega)]
        congr 2
        simp only [List.length_append, List.length_cons, List.length_nil]
        omega

theorem monitorTick_fst_cases (s : MonitorState) (inp : TickInput) :
    (monitorTick s inp).1 = s ∨
    ∃ m ns, (monitorTick s inp).1 = (tickSuccess s inp.threshold inp.enabled m ns).1 := by
  cases hm : inp.metrics with
  | none => left; simp [monitorTick, hm]
  | some m =>
      cases hn : netSpeedKBs (m.time - s.last_net_time)
          ((m.sent - s.last_net_sent) + (m.recv - s.last_net_recv)) with
      | none => left; simp [monitorTick, hm, hn]
      | some ns => right; exact ⟨m, ns, by simp [monitorTick, hm, hn]⟩

theorem monitorRun_fst_inv (P : MonitorState → Prop)
    (hP : ∀ s inp, P s → P (monitorTick s inp).1) :
    ∀ (l : List TickInput) (s : MonitorState), P s → P (monitorRun s l).1 := by
  intro l
  induction l with
  | nil => intro s hs; simpa [monitorRun] using hs
  | cons inp rest ih => intro s hs; simpa [monitorRun] using ih _ (hP s inp hs)

theorem lengths_eq_inv (s : MonitorState) (inp : TickInput)
    (h : s.cpu_history.length = s.ram_history.length ∧
         s.cpu_history.length = s.disk_history.length ∧
         s.cpu_history.length = s.net_history.length) :
    ((monitorTick s inp).1.cpu_history.length = (monitorTick s inp).1.ram_history.length ∧
     (monitorTick s inp).1.cpu_history.length = (monitorTick s inp).1.disk_history.length ∧
     (monitorTick s inp).1.cpu_history.length = (monitorTick s inp).1.net_history.length) := by
  rcases monitorTick_fst_cases s inp with hc | ⟨m, ns, hc⟩ <;> rw [hc]
  · exact h
  · simp only [tickSuccess, length_pushHistory]
    obtain ⟨h1, h2, h3⟩ := h
    refine ⟨?_, ?_, ?_⟩
    · rw [← h1]
    · rw [← h2]
    · rw [← h3]

theorem tick_nonempty_inv (s : MonitorState) (inp : TickInput)
    (h : s.stats.total_time ≠ 0 →
      0 < s.cpu_history.length ∧ 0 < s.ram_history.length ∧ 0 < s.disk_history.length) :
    (monitorTick s inp).1.stats.total_time ≠ 0 →
      0 < (monitorTick s inp).1.cpu_history.length ∧
      0 < (monitorTick s inp).1.ram_history.length ∧
      0 < (monitorTick s inp).1.disk_history.length := by
  rcases monitorTick_fst_cases s inp with hc | ⟨m, ns, hc⟩ <;> rw [hc]
  · exact h
  · intro
    refine ⟨?_, ?_, ?_⟩ <;> simp [tickSuccess, length_pushHistory]

theorem tick_net_le_inv (s : MonitorState) (inp : TickInput)
    (h : ∀ x ∈ s.net_history, x ≤ 100) :
    ∀ x ∈ (monitorTick s inp).1.net_history, x ≤ 100 := by
  rcases monitorTick_fst_cases s inp with hc | ⟨m, ns, hc⟩ <;> rw [hc]
  · exact h
  · intro x hx
    simp only [tickSuccess] at hx
    rcases mem_pushHistory hx with hx | hx
    · exact h x hx
    · rw [hx]; exact min_le_right _ _

theorem monitorTick_sum (s : MonitorState) (inp : TickInput) :
    timeInStateSum (monitorTick s inp).1.stats =
      timeInStateSum s.stats + 2 * countMoodTicks [(monitorTick s inp).2] := by
  cases hm : inp.metrics with
  | none => simp [monitorTick, hm, countMoodTicks]
  | some m =>
      cases hn : netSpeedKBs (m.time - s.last_net_time)
          ((m.sent - s.last_net_sent) + (m.recv - s.last_net_recv)) with
      | none => simp [monitorTick, hm, hn, countMoodTicks]
      | some ns =>
          simp only [monitorTick, hm, hn]
          cases hmood : determine_mood inp.threshold m.cpu m.ram m.disk <;>
            simp [tickSuccess, timeInStateSum, countMoodTicks, hmood] <;> ring

theorem monitorRun_skip_failed_reads : ∀ (l : List TickInput) (s : MonitorState),
    (monitorRun s l).1 = (monitorRun s (l.filter fun i => i.metrics.isSome)).1 := by
  intro l
  induction l with
  | nil => intro s; simp [monitorRun]
  | cons inp rest ih =>
      intro s
      cases hm : inp.metrics with
      | none =>
          have hstep : monitorTick s inp = (s, none) := by simp [monitorTick, hm]
          simp [monitorRun, List.filter, hm, hstep, ih]
      | some m =>
          simp [monitorRun, List.filter, hm, ih]

/-! ## Claim theorems -/

/-- Claim C1: `determine_mood`, given (threshold, cpu, ram, disk), evaluates
an ordered decision list with strict comparisons: Critical iff some metric
strictly exceeds the threshold; otherwise Worried iff some metric strictly
exceeds 75; otherwise Happy iff cpu < 30 and ram < 50 and disk < 70;
otherwise Content.  In particular a metric equal to exactly 75 is not by
itself Worried: (75, 10, 10) at threshold 90 yields Content, while
(80, 10, 10) yields Worried. -/
theorem determine_mood_decision_list (threshold cpu ram disk : ℚ) :
    (determine_mood threshold cpu ram disk = .critical ↔
      (threshold < cpu ∨ threshold < ram ∨ threshold < disk)) ∧
    (determine_mood threshold cpu ram disk = .worried ↔
      (cpu ≤ threshold ∧ ram ≤ threshold ∧ disk ≤ threshold) ∧
      (75 < cpu ∨ 75 < ram ∨ 75 < disk)) ∧
    (determine_mood threshold cpu ram disk = .happy ↔
      (cpu ≤ threshold ∧ ram ≤ threshold ∧ disk ≤ threshold) ∧
      (cpu ≤ 75 ∧ ram ≤ 75 ∧ disk ≤ 75) ∧
      (cpu < 30 ∧ ram < 50 ∧ disk < 70)) ∧
    (determine_mood threshold cpu ram disk = .content ↔
      (cpu ≤ threshold ∧ ram ≤ threshold ∧ disk ≤ threshold) ∧
      (cpu ≤ 75 ∧ ram ≤ 75 ∧ disk ≤ 75) ∧
      ¬(cpu < 30 ∧ ram < 50 ∧ disk < 70)) ∧
    determine_mood 90 75 10 10 = .content ∧
    determine_mood 90 80 10 10 = .worried := by
  refine ⟨?_, ?_, ?_, ?_, by decide, by decide⟩ <;>
    simp only [determine_mood] <;> split_ifs with h1 h2 h3
  · exact iff_of_true rfl h1
  · exact iff_of_false (by simp) h1
  · exact iff_of_false (by simp) h1
  · exact iff_of_false (by simp) h1
  · refine iff_of_false (by simp) fun hR => ?_
    obtain ⟨⟨a, b, c⟩, -⟩ := hR
    rcases h1 with h | h | h <;> linarith
  · exact iff_of_true rfl ⟨by push_neg at h1; exact h1, h2⟩
  · exact iff_of_false (by simp) fun hR => h2 hR.2
  · exact iff_of_false (by simp) fun hR => h2 hR.2
  · refine iff_of_false (by simp) fun hR => ?_
    obtain ⟨⟨a, b, c⟩, -, -⟩ := hR
    rcases h1 with h | h | h <;> linarith
  · refine iff_of_false (by simp) fun hR => ?_
    obtain ⟨-, ⟨a, b, c⟩, -⟩ := hR
    rcases h2 with h | h | h <;> linarith
  · exact iff_of_true rfl ⟨by push_neg at h1; exact h1, by push_neg at h2; exact h2, h3⟩
  · exact iff_of_false (by simp) fun hR => h3 hR.2.2
  · refine iff_of_false (by simp) fun hR => ?_
    obtain ⟨⟨a, b, c⟩, -, -⟩ := hR
    rcases h1 with h | h | h <;> linarith
  · refine iff_of_false (by simp) fun hR => ?_
    obtain ⟨-, ⟨a, b, c⟩, -⟩ := hR
    rcases h2 with h | h | h <;> linarith
  · exact iff_of_false (by simp) fun hR => hR.2.2 h3
  · exact iff_of_true rfl ⟨by push_neg at h1; exact h1, by push_neg at h2; exact h2, h3⟩

/-- Claim C2: with alerts enabled, the alert gate fires exactly once per
maximal contiguous run of Critical moods and never more than once per tick.
For the mood sequence [Critical, Critical, Critical, Content, Critical] the
fired flags are [true, false, false, false, true]: exactly twice, on the
first and fifth ticks; and for every mood sequence with alerts enabled, the
number of fires equals the number of fresh entries into the critical state. -/
theorem alert_fires_once_per_critical_run :
    alertTrace false [(true, .critical), (true, .critical), (true, .critical),
        (true, .content), (true, .critical)] = [true, false, false, false, true] ∧
    ∀ ms : List Mood,
      (alertTrace false (ms.map fun m => (true, m))).count true =
        criticalRunStarts false ms :=
  ⟨by decide, fun ms => alertTrace_count_eq ms false⟩

/-- Counterexample to claim C3: alerts are disabled on entry into a critical
run (tick 1, mood Critical, enabled false: no fire and the gate does not
latch) and re-enabled while the same run is still ongoing (tick 2, mood
Critical, enabled true).  The gate fires on tick 2, although the mood never
left Critical; the claim asserts the fired flags would be [false, false]. -/
theorem alert_reenable_mid_run_fires :
    alertTrace false [(false, .critical), (true, .critical)] = [false, true] ∧
    alertTrace false [(false, .critical), (true, .critical)] ≠ [false, false] := by
  constructor <;> decide

/-- Claim C3 as amended: disabling alerts while the mood is Critical
suppresses firing, but it also suppresses the Armed-to-Fired transition of
the gate (`alert_shown` stays false), so re-enabling alerts while the same
critical run is still ongoing causes the gate to fire on the very next
critical tick, without the mood first leaving Critical. -/
theorem alert_disabled_gate_stays_armed (shown : Bool) (m : Mood) (h : m = .critical) :
    (alertStep shown false m).1 = false ∧
    (alertStep false false m).2 = false ∧
    (alertStep false true m).1 = true := by
  subst h; cases shown <;> exact ⟨rfl, rfl, rfl⟩

/-- Witness for `alert_disabled_gate_stays_armed` at shown = true,
m = Critical. -/
theorem alert_disabled_gate_stays_armed_witness :
    (Mood.critical = Mood.critical) ∧
    ((alertStep true false .critical).1 = false ∧
     (alertStep false false .critical).2 = false ∧
     (alertStep false true .critical).1 = true) :=
  ⟨rfl, alert_disabled_gate_stays_armed true .critical rfl⟩

/-- Counterexample to claim C4: one successful tick (no skipped ticks, no
rounding slack) with reading (cpu 50, ram 60, disk 65, threshold 90) is
classified Content, yet adds nothing to any time-in-state counter: the sum
of all the time-in-state counters kept by the source is 0 while the total
elapsed session time is 2.  The source keeps no counter at all for time
spent in the Content mood. -/
theorem content_tick_breaks_conservation :
    timeInStateSum (monitorRun (initState 0 0 0 0)
      [⟨some ⟨50, 60, 65, 0, 0, 2⟩, 90, true⟩]).1.stats = 0 ∧
    (monitorRun (initState 0 0 0 0)
      [⟨some ⟨50, 60, 65, 0, 0, 2⟩, 90, true⟩]).1.stats.total_time = 2 ∧
    (monitorRun (initState 0 0 0 0)
      [⟨some ⟨50, 60, 65, 0, 0, 2⟩, 90, true⟩]).2 = [some (.content, false)] := by
  refine ⟨?_, ?_, ?_⟩ <;>
    norm_num [monitorRun, monitorTick, netSpeedKBs, tickSuccess, initState, determine_mood,
      alertStep, pushHistory, timeInStateSum] <;> simp

/-- Claim C4 as amended: the sum of the time-in-state counters the source
keeps (happy, worried, critical; there is no Content counter) equals the
poll interval (2 seconds) times the number of successful ticks whose mood is
not Content.  Ticks classified Content, like skipped ticks, contribute
elapsed session time but nothing to any counter, so the conservation law of
the claim fails whenever a Content tick occurs. -/
theorem timeInState_sum_counts_noncontent_ticks : ∀ (l : List TickInput) (s : MonitorState),
    timeInStateSum (monitorRun s l).1.stats =
      timeInStateSum s.stats + 2 * countMoodTicks (monitorRun s l).2 := by
  intro l
  induction l with
  | nil => intro s; simp [monitorRun, countMoodTicks]
  | cons inp rest ih =>
      intro s
      have h1 := monitorTick_sum s inp
      simp only [monitorRun]
      rw [ih]
      cases ho : (monitorTick s inp).2 with
      | none => rw [ho] at h1; simp [countMoodTicks] at h1 ⊢; rw [h1]
      | some p =>
          obtain ⟨mo, f⟩ := p
          rw [ho] at h1; simp [countMoodTicks] at h1 ⊢; rw [h1]
          by_cases hmo : mo = Mood.content <;> simp [hmo] <;> ring

/-- Counterexample to claim C5: the network-rate computation of
`monitor_system` has no epsilon floor and no counter-reset guard.  An
elapsed time of exactly zero is a division error (`none`, the Python
`ZeroDivisionError`), not a value floored to an epsilon; and a counter
reset (byte delta -3000 over 2 seconds) produces the strictly negative
rate -1500/1024 KB/s instead of a zero delta. -/
theorem netSpeed_unguarded_counterexample :
    netSpeedKBs 0 1000 = none ∧
    netSpeedKBs 2 (-3000) = some (-(1500 / 1024)) ∧
    (-(1500 / 1024) : ℚ) < 0 := by
  refine ⟨by simp [netSpeedKBs], ?_, by norm_num⟩
  norm_num [netSpeedKBs]

/-- Claim C5 as amended: the network rate is computed as
((currSent - prevSent) + (currRecv - prevRecv)) / elapsed / 1024 KB/s with
no guard: a zero elapsed time raises a division error, which skips the whole
tick without mutating any state (rather than being floored to an epsilon),
and counter resets keep their negative deltas.  The concrete example of the
claim holds: deltas (1000-1000) and (3000-2000) over 2 seconds give 500
bytes/sec, i.e. 500/1024 KB/s. -/
theorem netSpeed_exact_quotient (dt : ℚ) (bytes : ℤ) (s : MonitorState)
    (inp : TickInput) (m : Metrics)
    (hdt : dt ≠ 0) (hm : inp.metrics = some m) (ht : m.time = s.last_net_time) :
    netSpeedKBs dt bytes = some ((bytes : ℚ) / dt / 1024) ∧
    netSpeedKBs 0 bytes = none ∧
    monitorTick s inp = (s, none) ∧
    netSpeedKBs 2 ((1000 - 1000) + (3000 - 2000)) = some (500 / 1024) := by
  refine ⟨by simp [netSpeedKBs, hdt], by simp [netSpeedKBs], ?_, by norm_num [netSpeedKBs]⟩
  simp [monitorTick, hm, netSpeedKBs, ht, sub_self]

/-- Witness for `netSpeed_exact_quotient` at dt = 2, bytes = 5, the initial
state, and a tick whose timestamp equals the stored network timestamp. -/
theorem netSpeed_exact_quotient_witness :
    ((2 : ℚ) ≠ 0) ∧
    ((⟨some ⟨1, 1, 1, 0, 0, 0⟩, 90, true⟩ : TickInput).metrics =
      some (⟨1, 1, 1, 0, 0, 0⟩ : Metrics)) ∧
    ((⟨1, 1, 1, 0, 0, 0⟩ : Metrics).time = (initState 0 0 0 0).last_net_time) ∧
    (netSpeedKBs 2 5 = some (((5 : ℤ) : ℚ) / 2 / 1024) ∧
     netSpeedKBs 0 5 = none ∧
     monitorTick (initState 0 0 0 0) ⟨some ⟨1, 1, 1, 0, 0, 0⟩, 90, true⟩ =
       (initState 0 0 0 0, none) ∧
     netSpeedKBs 2 ((1000 - 1000) + (3000 - 2000)) = some (500 / 1024)) :=
  ⟨by norm_num, rfl, rfl,
    netSpeed_exact_quotient 2 5 (initState 0 0 0 0) ⟨some ⟨1, 1, 1, 0, 0, 0⟩, 90, true⟩
      ⟨1, 1, 1, 0, 0, 0⟩ (by norm_num) rfl rfl⟩

/-- Claim C6: for every sequence of pushes starting from the empty buffer,
a history buffer never holds more than its capacity of 60 samples, its
contents are exactly the most recent pushes in FIFO (oldest to newest)
order, and a push at capacity evicts exactly the single oldest sample. -/
theorem history_buffer_bounded_fifo (xs l : List ℚ) (x : ℚ) (h : l.length = 60) :
    (xs.foldl pushHistory []).length ≤ 60 ∧
    xs.foldl pushHistory [] = xs.drop (xs.length - 60) ∧
    pushHistory l x = l.drop 1 ++ [x] := by
  refine ⟨?_, foldl_pushHistory_drop xs, ?_⟩
  · rw [foldl_pushHistory_drop, List.length_drop]; omega
  · simp [pushHistory, h]

/-- Witness for `history_buffer_bounded_fifo` with the pushes [1, 2, 3] and
a buffer of 60 zeros at capacity. -/
theorem history_buffer_bounded_fifo_witness :
    ((List.replicate 60 (0 : ℚ)).length = 60) ∧
    ((([1, 2, 3] : List ℚ).foldl pushHistory []).length ≤ 60 ∧
     ([1, 2, 3] : List ℚ).foldl pushHistory [] =
       ([1, 2, 3] : List ℚ).drop (([1, 2, 3] : List ℚ).length - 60) ∧
     pushHistory (List.replicate 60 (0 : ℚ)) 7 =
       (List.replicate 60 (0 : ℚ)).drop 1 ++ [7]) :=
  ⟨by simp, history_buffer_bounded_fifo [1, 2, 3] (List.replicate 60 (0 : ℚ)) 7 (by simp)⟩

/-- Claim C7: when a metric read fails during a tick, the tick is skipped
atomically: the state is returned bit-for-bit unchanged (no sample appended
to any history, no statistics counter mutated, the alert state untouched)
and no snapshot is produced; the loop continues, and the final state of any
run equals the final state of the same run with the failed-read ticks
removed.  The loop function is total: a failed read never terminates it. -/
theorem failed_read_skips_tick_atomically (s : MonitorState) (inp : TickInput)
    (l : List TickInput) (h : inp.metrics = none) :
    monitorTick s inp = (s, none) ∧
    (monitorRun s l).1 = (monitorRun s (l.filter fun i => i.metrics.isSome)).1 :=
  ⟨by simp [monitorTick, h], monitorRun_skip_failed_reads l s⟩

/-- Witness for `failed_read_skips_tick_atomically` at the initial state and
a run consisting of one failed tick. -/
theorem failed_read_skips_tick_atomically_witness :
    ((⟨none, 90, true⟩ : TickInput).metrics = none) ∧
    (monitorTick (initState 0 0 0 0) ⟨none, 90, true⟩ = (initState 0 0 0 0, none) ∧
     (monitorRun (initState 0 0 0 0) [⟨none, 90, true⟩]).1 =
       (monitorRun (initState 0 0 0 0)
         ([⟨none, 90, true⟩].filter fun i => i.metrics.isSome)).1) :=
  ⟨rfl, failed_read_skips_tick_atomically (initState 0 0 0 0) ⟨none, 90, true⟩
    [⟨none, 90, true⟩] rfl⟩

/-- Claim C8: the statistics display returns the arithmetic mean of the
current history contents when it displays anything, and its division by the
history length is unreachable on an empty buffer: on every reachable state
its guard (total_time > 0) implies the histories are non-empty, because
total_time only becomes non-zero on a successful tick, which also appends a
sample to every history; on the initial (empty-buffer) state it returns the
sentinel `none`. -/
theorem stats_display_mean_no_empty_division (sent0 recv0 : ℤ) (t0 start : ℚ)
    (l : List TickInput)
    (h : update_statistics_display (monitorRun (initState sent0 recv0 t0 start) l).1 ≠ none) :
    update_statistics_display (initState sent0 recv0 t0 start) = none ∧
    0 < (monitorRun (initState sent0 recv0 t0 start) l).1.cpu_history.length ∧
    0 < (monitorRun (initState sent0 recv0 t0 start) l).1.ram_history.length ∧
    0 < (monitorRun (initState sent0 recv0 t0 start) l).1.disk_history.length ∧
    update_statistics_display (monitorRun (initState sent0 recv0 t0 start) l).1 =
      some ((monitorRun (initState sent0 recv0 t0 start) l).1.cpu_history.sum /
              (monitorRun (initState sent0 recv0 t0 start) l).1.cpu_history.length,
            (monitorRun (initState sent0 recv0 t0 start) l).1.ram_history.sum /
              (monitorRun (initState sent0 recv0 t0 start) l).1.ram_history.length,
            (monitorRun (initState sent0 recv0 t0 start) l).1.disk_history.sum /
              (monitorRun (initState sent0 recv0 t0 start) l).1.disk_history.length) := by
  have hinv := monitorRun_fst_inv
    (fun s => s.stats.total_time ≠ 0 →
      0 < s.cpu_history.length ∧ 0 < s.ram_history.length ∧ 0 < s.disk_history.length)
    tick_nonempty_inv l (initState sent0 recv0 t0 start)
    (fun h0 => absurd rfl h0)
  by_cases hpos : 0 < (monitorRun (initState sent0 recv0 t0 start) l).1.stats.total_time
  · obtain ⟨hc, hr, hd⟩ := hinv (ne_of_gt hpos)
    exact ⟨by simp [update_statistics_display, initState], hc, hr, hd,
      by simp [update_statistics_display, hpos]⟩
  · exact absurd (by simp [update_statistics_display, hpos]) h

/-- Witness for `stats_display_mean_no_empty_division` after one successful
tick: total_time is 2, so the display is not `none`. -/
theorem stats_display_mean_no_empty_division_witness :
    (update_statistics_display (monitorRun (initState 0 0 0 0)
        [⟨some ⟨50, 60, 65, 0, 0, 2⟩, 90, true⟩]).1 ≠ none) ∧
    (update_statistics_display (initState 0 0 0 0) = none ∧
     0 < (monitorRun (initState 0 0 0 0)
        [⟨some ⟨50, 60, 65, 0, 0, 2⟩, 90, true⟩]).1.cpu_history.length ∧
     0 < (monitorRun (initState 0 0 0 0)
        [⟨some ⟨50, 60, 65, 0, 0, 2⟩, 90, true⟩]).1.ram_history.length ∧
     0 < (monitorRun (initState 0 0 0 0)
        [⟨some ⟨50, 60, 65, 0, 0, 2⟩, 90, true⟩]).1.disk_history.length ∧
     update_statistics_display (monitorRun (initState 0 0 0 0)
        [⟨some ⟨50, 60, 65, 0, 0, 2⟩, 90, true⟩]).1 =
      some ((monitorRun (initState 0 0 0 0)
              [⟨some ⟨50, 60, 65, 0, 0, 2⟩, 90, true⟩]).1.cpu_history.sum /
              (monitorRun (initState 0 0 0 0)
              [⟨some ⟨50, 60, 65, 0, 0, 2⟩, 90, true⟩]).1.cpu_history.length,
            (monitorRun (initState 0 0 0 0)
              [⟨some ⟨50, 60, 65, 0, 0, 2⟩, 90, true⟩]).1.ram_history.sum /
              (monitorRun (initState 0 0 0 0)
              [⟨some ⟨50, 60, 65, 0, 0, 2⟩, 90, true⟩]).1.ram_history.length,
            (monitorRun (initState 0 0 0 0)
              [⟨some ⟨50, 60, 65, 0, 0, 2⟩, 90, true⟩]).1.disk_history.sum /
              (monitorRun (initState 0 0 0 0)
              [⟨some ⟨50, 60, 65, 0, 0, 2⟩, 90, true⟩]).1.disk_history.length)) :=
  ⟨by norm_num [update_statistics_display, monitorRun, monitorTick, netSpeedKBs, tickSuccess,
      initState, determine_mood, alertStep, pushHistory] <;> simp,
    stats_display_mean_no_empty_division 0 0 0 0 [⟨some ⟨50, 60, 65, 0, 0, 2⟩, 90, true⟩]
      (by norm_num [update_statistics_display, monitorRun, monitorTick, netSpeedKBs,
        tickSuccess, initState, determine_mood, alertStep, pushHistory] <;> simp)⟩

/-- Counterexample to claim C9: a network counter reset (previous counters
1000 and 2000, current counters 0 and 0, elapsed 2 seconds) makes
`monitor_system` store the strictly negative value -15000/1048576 in the
network history: the stored values are capped above at 100 by
`min(net_speed / 1024 * 10, 100)` but are not bounded below by 0. -/
theorem net_history_negative_on_counter_reset :
    (monitorRun (initState 1000 2000 0 0)
      [⟨some ⟨10, 10, 10, 0, 0, 2⟩, 90, true⟩]).1.net_history = [-(15000 / 1048576)] ∧
    (-(15000 / 1048576) : ℚ) < 0 := by
  constructor
  · norm_num [monitorRun, monitorTick, netSpeedKBs, tickSuccess, initState, determine_mood,
      alertStep, pushHistory, min_def]
  · norm_num

/-- Claim C9 as amended: every value stored in the network history buffer is
at most 100, for every possible sequence of network counter readings and
elapsed times; the lower bound 0 does not hold in general, since counter
resets produce negative rates that pass the upper cap unchanged. -/
theorem net_history_values_le_100 (sent0 recv0 : ℤ) (t0 start : ℚ)
    (l : List TickInput) (x : ℚ)
    (h : x ∈ (monitorRun (initState sent0 recv0 t0 start) l).1.net_history) :
    x ≤ 100 :=
  monitorRun_fst_inv (fun s => ∀ y ∈ s.net_history, y ≤ 100) tick_net_le_inv
    l (initState sent0 recv0 t0 start) (by intro y hy; simp [initState] at hy) x h

/-- Witness for `net_history_values_le_100`: after one tick with zero byte
deltas the network history contains the value 0, which is at most 100. -/
theorem net_history_values_le_100_witness :
    ((0 : ℚ) ∈ (monitorRun (initState 0 0 0 0)
        [⟨some ⟨10, 10, 10, 0, 0, 2⟩, 90, true⟩]).1.net_history) ∧
    (0 : ℚ) ≤ 100 :=
  ⟨by norm_num [monitorRun, monitorTick, netSpeedKBs, tickSuccess, initState, determine_mood,
      alertStep, pushHistory, min_def],
    net_history_values_le_100 0 0 0 0 [⟨some ⟨10, 10, 10, 0, 0, 2⟩, 90, true⟩] 0
      (by norm_num [monitorRun, monitorTick, netSpeedKBs, tickSuccess, initState,
        determine_mood, alertStep, pushHistory, min_def])⟩

/-- Claim C10 (implicit): every successful tick appends exactly one sample
to each of the four history buffers, so after any sequence of ticks starting
from the initial state, the cpu, ram, disk and network histories always have
equal lengths. -/
theorem histories_have_equal_lengths (sent0 recv0 : ℤ) (t0 start : ℚ)
    (l : List TickInput) :
    (monitorRun (initState sent0 recv0 t0 start) l).1.cpu_history.length =
      (monitorRun (initState sent0 recv0 t0 start) l).1.ram_history.length ∧
    (monitorRun (initState sent0 recv0 t0 start) l).1.cpu_history.length =
      (monitorRun (initState sent0 recv0 t0 start) l).1.disk_history.length ∧
    (monitorRun (initState sent0 recv0 t0 start) l).1.cpu_history.length =
      (monitorRun (initState sent0 recv0 t0 start) l).1.net_history.length :=
  monitorRun_fst_inv
    (fun s => s.cpu_history.length = s.ram_history.length ∧
      s.cpu_history.length = s.disk_history.length ∧
      s.cpu_history.length = s.net_history.length)
    lengths_eq_inv l (initState sent0 recv0 t0 start) (by simp [initState])

end ServerPet
